import Mathlib

/-!
Shallow embedding of the funding-rate mean-reversion signal engine of the
kraken-trading-app repository.

Numeric model: JavaScript numbers are modelled as exact rationals (`ℚ`);
the only irrational operation in the engine, `Math.sqrt` applied to the
population variance, is abstracted by passing the square root `std` as an
explicit parameter; theorems that depend on it carry the hypothesis
`0 ≤ std ∧ std * std = variance`, which pins `std` down uniquely.
`calculateProgress` (risk library) uses `Math.log2` and is embedded over `ℝ`
with `Real.logb 2`.

Sources embedded:
  * `src/lib/analysis.ts` — `analyzeAsset`, `calculatePosition`,
    `RISK_PROFILES`, signal taxonomy;
  * `src/unnamed/part_000` (signals library) — `calculateStats`,
    `calculateZScore`;
  * `src/unnamed/part_001` (risk library) — `calculateProgress`.
-/

/-- The seven-level signal taxonomy of `src/lib/analysis.ts` (`SignalType`). -/
inductive SignalType where
  | ULTRA_LONG
  | STRONG_LONG
  | LONG
  | NEUTRAL
  | SHORT
  | STRONG_SHORT
  | ULTRA_SHORT
  deriving DecidableEq, Repr

/-- One funding-rate observation (`FundingRate` in `src/lib/kraken.ts`);
the timestamp is modelled as the epoch-milliseconds integer that
`new Date(ts).getTime()` produces. -/
structure FundingRate where
  timestamp : ℤ
  relativeFundingRate : ℚ
  deriving DecidableEq

/-- JavaScript `array.slice(-n)`: the last `n` elements, the whole list when
`n` exceeds the length, and (because `-0 === 0`) the whole list when `n = 0`. -/
def sliceNeg {α : Type} (n : ℕ) (l : List α) : List α :=
  if n = 0 then l else l.drop (l.length - n)

/-- `Math.max(...l)` for the nonempty lists the engine feeds it. -/
def listMax (l : List ℚ) : ℚ :=
  match l with
  | [] => 0
  | h :: t => t.foldl max h

/-- `Math.min(...l)` for the nonempty lists the engine feeds it. -/
def listMin (l : List ℚ) : ℚ :=
  match l with
  | [] => 0
  | h :: t => t.foldl min h

/-- `lookback.reduce((a, b) => a + b, 0) / lookback.length`
(line 80 of `src/lib/analysis.ts`). -/
def listMean (l : List ℚ) : ℚ :=
  l.foldl (fun a b => a + b) 0 / l.length

/-- `lookback.reduce((sum, val) => sum + Math.pow(val - mean, 2), 0) / lookback.length`
(line 81 of `src/lib/analysis.ts`): the population variance whose square root
the source stores as `std`. -/
def listVariance (l : List ℚ) : ℚ :=
  l.foldl (fun s v => s + (v - listMean l) ^ 2) 0 / l.length

/-- The stable ascending sort by timestamp of line 73-74 of
`src/lib/analysis.ts` (`[...fundingRates].sort((a, b) => getTime(a) - getTime(b))`). -/
def sortByTimestamp (l : List FundingRate) : List FundingRate :=
  l.insertionSort (fun a b => a.timestamp ≤ b.timestamp)

/-- The percentage series of line 76: `sortedRates.map(r => r.relativeFundingRate * 100)`. -/
def analysisRates (fundingRates : List FundingRate) : List ℚ :=
  (sortByTimestamp fundingRates).map (fun r => r.relativeFundingRate * 100)

/-- The lookback window of line 77: `rates.slice(-lookbackPeriods)`. -/
def analysisLookback (fundingRates : List FundingRate) (lookbackPeriods : ℕ) : List ℚ :=
  sliceNeg lookbackPeriods (analysisRates fundingRates)

/-- The first confirmation string of line 105; the two-decimal `toFixed(2)`
rendering of the float is abstracted into an exact rendering of the rational. -/
def zScoreDetail (zScore : ℚ) : String :=
  "Z-Score: " ++ toString zScore ++ "σ"

/-- The historical-extreme condition of line 127 of `src/lib/analysis.ts`:
`currentRate > historicalMax * 0.9 || currentRate < historicalMin * 0.9`. -/
def nearExtreme (currentRate : ℚ) (lookback : List ℚ) : Prop :=
  currentRate > listMax lookback * 0.9 ∨ currentRate < listMin lookback * 0.9

instance (currentRate : ℚ) (lookback : List ℚ) : Decidable (nearExtreme currentRate lookback) := by
  unfold nearExtreme; infer_instance

/-- One `if (cond) { confirmations++; confirmationDetails.push(detail) }`
block of lines 97-130 of `src/lib/analysis.ts`, as an update of the
`(confirmations, confirmationDetails)` state. -/
def ccStep (cond : Prop) [Decidable cond] (state : ℕ × List String)
    (detail : String) : ℕ × List String :=
  if cond then (state.1 + 1, state.2 ++ [detail]) else state

/-- Lines 97-130 of `src/lib/analysis.ts`: the confirmation counter and its
detail strings, accumulated in lockstep through the six conditions in source
order, starting from `confirmations = 0` and an empty detail list. -/
def countConfirmations (zScore currentRate : ℚ) (isFundingReversing : Bool)
    (lookback : List ℚ) : ℕ × List String :=
  let absZ := |zScore|
  let s1 := ccStep (absZ ≥ 1.8) (0, []) (zScoreDetail zScore)
  let s2 := ccStep (absZ ≥ 2.0) s1 "Above 2σ threshold"
  let s3 := ccStep (absZ ≥ 2.5) s2 "Extreme deviation (2.5σ+)"
  let s4 := ccStep (absZ ≥ 3.0) s3 "🔥 Ultra extreme (3σ+)"
  let s5 := ccStep (isFundingReversing = true) s4 "Funding trend reversing"
  ccStep (nearExtreme currentRate lookback) s5 "Near historical extreme"

/-- Lines 132-142 of `src/lib/analysis.ts`: the dual-gated classifier. -/
def determineSignal (zScore : ℚ) (confirmations : ℕ) : SignalType :=
  if zScore ≥ 3.0 ∧ confirmations ≥ 5 then .ULTRA_SHORT
  else if zScore ≥ 2.5 ∧ confirmations ≥ 4 then .STRONG_SHORT
  else if zScore ≥ 2.0 ∧ confirmations ≥ 3 then .SHORT
  else if zScore ≥ 1.8 ∧ confirmations ≥ 2 then .SHORT
  else if zScore ≤ -3.0 ∧ confirmations ≥ 5 then .ULTRA_LONG
  else if zScore ≤ -2.5 ∧ confirmations ≥ 4 then .STRONG_LONG
  else if zScore ≤ -2.0 ∧ confirmations ≥ 3 then .LONG
  else if zScore ≤ -1.8 ∧ confirmations ≥ 2 then .LONG
  else .NEUTRAL

/-- Modelled from the spec: §4.5's classification table, evaluated as the
first matching row, most extreme first, with NEUTRAL as the fall-through. -/
def specClassifierSignal (z : ℚ) (confirmations : ℕ) : SignalType :=
  if z ≥ 3.0 ∧ confirmations ≥ 5 then .ULTRA_SHORT
  else if z ≥ 2.5 ∧ confirmations ≥ 4 then .STRONG_SHORT
  else if z ≥ 2.0 ∧ confirmations ≥ 3 then .SHORT
  else if z ≥ 1.8 ∧ confirmations ≥ 2 then .SHORT
  else if z ≤ -3.0 ∧ confirmations ≥ 5 then .ULTRA_LONG
  else if z ≤ -2.5 ∧ confirmations ≥ 4 then .STRONG_LONG
  else if z ≤ -2.0 ∧ confirmations ≥ 3 then .LONG
  else if z ≤ -1.8 ∧ confirmations ≥ 2 then .LONG
  else .NEUTRAL

/-- Modelled from the spec: the SHORT/LONG mirror of §8, swapping each
SHORT-side class with its LONG-side counterpart and fixing NEUTRAL. -/
def mirrorSignal : SignalType → SignalType
  | .ULTRA_SHORT => .ULTRA_LONG
  | .STRONG_SHORT => .STRONG_LONG
  | .SHORT => .LONG
  | .NEUTRAL => .NEUTRAL
  | .LONG => .SHORT
  | .STRONG_LONG => .STRONG_SHORT
  | .ULTRA_LONG => .ULTRA_SHORT

/-- Line 145 of `src/lib/analysis.ts`:
`Math.min(100, (absZ * 15) + (confirmations * 12))`. -/
def edgeScore (absZ : ℚ) (confirmations : ℕ) : ℚ :=
  min 100 (absZ * 15 + confirmations * 12)

/-- Lines 148-152 of `src/lib/analysis.ts`: the win-probability estimate,
the three additive contributions capped by `Math.min(0.80, ·)` at the end. -/
def winProbability (absZ : ℚ) (confirmations : ℕ) (isFundingReversing : Bool) : ℚ :=
  min 0.80 (0.50 + min 0.15 (absZ * 0.05) + confirmations * 0.03 +
    if isFundingReversing then 0.05 else 0)

/-- The `Analysis` record of `src/lib/analysis.ts` (the wall-clock `timestamp`
field, irrelevant to every numeric property, is omitted). -/
structure Analysis where
  symbol : String
  price : ℚ
  currentRate : ℚ
  mean : ℚ
  std : ℚ
  zScore : ℚ
  signal : SignalType
  confirmations : ℕ
  confirmationDetails : List String
  edgeScore : ℚ
  winProbability : ℚ
  isFundingReversing : Bool
  deriving DecidableEq

/-- The record built by lines 72-168 of `analyzeAsset` once the data-length
guard has passed.  `std` is the caller-supplied value of
`Math.sqrt(listVariance lookback)` (see the file header). -/
def buildAnalysis (symbol : String) (fundingRates : List FundingRate)
    (currentPrice : ℚ) (std : ℚ) (lookbackPeriods : ℕ) : Analysis :=
  let rates := analysisRates fundingRates
  let lookback := analysisLookback fundingRates lookbackPeriods
  let mean := listMean lookback
  let currentRate := (rates.getLast?).getD 0
  let zScore := if std > 0 then (currentRate - mean) / std else 0
  let recentRates := sliceNeg 6 rates
  let fundingTrend :=
    if recentRates.length ≥ 2 then
      ((recentRates.getLast?).getD 0 - (recentRates.head?).getD 0) /
        ((recentRates.length : ℚ) - 1)
    else 0
  let isFundingReversing : Bool :=
    decide ((currentRate > mean ∧ fundingTrend < 0) ∨ (currentRate < mean ∧ fundingTrend > 0))
  let cc := countConfirmations zScore currentRate isFundingReversing lookback
  { symbol := symbol
    price := currentPrice
    currentRate := currentRate
    mean := mean
    std := std
    zScore := zScore
    signal := determineSignal zScore cc.1
    confirmations := cc.1
    confirmationDetails := cc.2
    edgeScore := edgeScore |zScore| cc.1
    winProbability := winProbability |zScore| cc.1 isFundingReversing
    isFundingReversing := isFundingReversing }

/-- Lines 61-169 of `src/lib/analysis.ts`: `analyzeAsset` returns `null`
(= `none`) exactly when the history is shorter than the lookback, and a fresh
`Analysis` otherwise. -/
def analyzeAsset (symbol : String) (fundingRates : List FundingRate)
    (currentPrice : ℚ) (std : ℚ) (lookbackPeriods : ℕ := 90) : Option Analysis :=
  if fundingRates.length < lookbackPeriods then none
  else some (buildAnalysis symbol fundingRates currentPrice std lookbackPeriods)

/-- The four risk modes of `RISK_PROFILES` in `src/lib/analysis.ts`. -/
inductive RiskMode where
  | LOW
  | MEDIUM
  | HIGH
  | ULTRA
  deriving DecidableEq, Repr

/-- One row of the `RISK_PROFILES` table. -/
structure RiskProfile where
  risk : ℚ
  leverage : ℚ
  minConfirmations : ℕ
  minZ : ℚ

/-- Lines 49-54 of `src/lib/analysis.ts`. -/
def RISK_PROFILES : RiskMode → RiskProfile
  | .LOW => { risk := 0.02, leverage := 3, minConfirmations := 2, minZ := 1.8 }
  | .MEDIUM => { risk := 0.03, leverage := 5, minConfirmations := 3, minZ := 2.0 }
  | .HIGH => { risk := 0.05, leverage := 7, minConfirmations := 4, minZ := 2.5 }
  | .ULTRA => { risk := 0.08, leverage := 10, minConfirmations := 5, minZ := 3.0 }

/-- `signal.includes('ULTRA')` on the seven signal names. -/
def signalIncludesUltra : SignalType → Bool
  | .ULTRA_LONG | .ULTRA_SHORT => true
  | _ => false

/-- `signal.includes('STRONG')` on the seven signal names. -/
def signalIncludesStrong : SignalType → Bool
  | .STRONG_LONG | .STRONG_SHORT => true
  | _ => false

/-- `signal.includes('LONG')` on the seven signal names. -/
def signalIncludesLong : SignalType → Bool
  | .ULTRA_LONG | .STRONG_LONG | .LONG => true
  | _ => false

/-- The `PositionSize` record of `src/lib/analysis.ts`; `leverage` is an
integer because the source rounds it (`Math.round`). -/
structure PositionSize where
  positionSize : ℚ
  leverage : ℤ
  riskAmount : ℚ
  riskPercent : ℚ
  stopLossPercent : ℚ
  takeProfitPercent : ℚ
  stopLossPrice : ℚ
  takeProfitPrice : ℚ
  expectedValue : ℚ
  deriving DecidableEq

/-- Lines 174-226 of `src/lib/analysis.ts`: `calculatePosition`.
`round` is Mathlib's `⌊x + 1/2⌋`, which agrees with `Math.round` everywhere. -/
def calculatePosition (analysis : Analysis) (capital : ℚ) (riskMode : RiskMode) : PositionSize :=
  let profile := RISK_PROFILES riskMode
  let mults : ℚ × ℚ :=
    if signalIncludesUltra analysis.signal then (1.5, 1.3)
    else if signalIncludesStrong analysis.signal then (1.2, 1.15)
    else (1.0, 1.0)
  let effectiveRisk := min (profile.risk * mults.1) 0.10
  let effectiveLeverage : ℤ := min (round (profile.leverage * mults.2)) 15
  let riskAmount := capital * effectiveRisk
  let stopLossPercent : ℚ := 0.015
  let takeProfitPercent := stopLossPercent * 2
  let positionSize := riskAmount / stopLossPercent
  let isLong := signalIncludesLong analysis.signal
  let stopLossPrice :=
    if isLong then analysis.price * (1 - stopLossPercent)
    else analysis.price * (1 + stopLossPercent)
  let takeProfitPrice :=
    if isLong then analysis.price * (1 + takeProfitPercent)
    else analysis.price * (1 - takeProfitPercent)
  let expectedValue :=
    analysis.winProbability * takeProfitPercent -
      (1 - analysis.winProbability) * stopLossPercent
  { positionSize := min positionSize (capital * 0.4)
    leverage := effectiveLeverage
    riskAmount := riskAmount
    riskPercent := effectiveRisk
    stopLossPercent := stopLossPercent
    takeProfitPercent := takeProfitPercent
    stopLossPrice := stopLossPrice
    takeProfitPrice := takeProfitPrice
    expectedValue := expectedValue }

/-- The mean of `calculateStats` in the signals library (`src/unnamed/part_000`):
`0` on an empty list, the arithmetic mean otherwise. -/
def calcStatsMean (values : List ℚ) : ℚ :=
  if values = [] then 0
  else values.foldl (fun a b => a + b) 0 / values.length

/-- The population variance of `calculateStats` in the signals library, the
quantity whose `Math.sqrt` that function returns as `std`. -/
def calcStatsVariance (values : List ℚ) : ℚ :=
  if values = [] then 0
  else ((values.map (fun v => (v - calcStatsMean values) ^ 2)).foldl
    (fun a b => a + b) 0) / values.length

/-- The rate window used by `calculateZScore` in the signals library:
`historicalRates.slice(-lookbackPeriods).map(r => r.relativeFundingRate)`
(no sorting, no `* 100` scaling). -/
def zScoreRates (historicalRates : List FundingRate) (lookbackPeriods : ℕ) : List ℚ :=
  (sliceNeg lookbackPeriods historicalRates).map (fun r => r.relativeFundingRate)

/-- `calculateZScore` of the signals library (`src/unnamed/part_000`, lines
49-66).  `std` is the caller-supplied value of
`Math.sqrt(calcStatsVariance (zScoreRates historicalRates lookbackPeriods))`. -/
def calculateZScore (historicalRates : List FundingRate) (currentRate : ℚ)
    (std : ℚ) (lookbackPeriods : ℕ := 90) : ℚ :=
  if historicalRates.length < 10 then 0
  else
    let rates := zScoreRates historicalRates lookbackPeriods
    let mean := calcStatsMean rates
    if std = 0 then 0
    else (currentRate - mean) / std

/-- The record returned by `calculateProgress` in the risk library
(`src/unnamed/part_001`). -/
structure Progress where
  linearProgress : ℝ
  logProgress : ℝ
  doublings : ℝ
  doublingsRemaining : ℝ

/-- `calculateProgress` of the risk library (`src/unnamed/part_001`, lines
78-101), embedded over `ℝ` with `Real.logb 2` for `Math.log2`. -/
noncomputable def calculateProgress (current : ℝ) (start : ℝ := 5000)
    (goal : ℝ := 100000) : Progress :=
  let linearProgress := (current - start) / (goal - start)
  let totalDoublings := Real.logb 2 (goal / start)
  let completedDoublings := Real.logb 2 (current / start)
  let logProgress := completedDoublings / totalDoublings
  { linearProgress := max 0 (min 1 linearProgress)
    logProgress := max 0 (min 1 logProgress)
    doublings := completedDoublings
    doublingsRemaining := totalDoublings - completedDoublings }

/-- A two-observation constant funding history used to instantiate the
universally quantified theorems below at a concrete input. -/
def demoFRs : List FundingRate := [⟨0, 0⟩, ⟨1, 0⟩]

/-- The analysis that `analyzeAsset "X" demoFRs 100 0 2` produces: a constant
series has mean 0, variance 0, hence `std = 0`, `zScore = 0`, no
confirmations, and a NEUTRAL signal. -/
def demoAnalysis : Analysis :=
  { symbol := "X", price := 100, currentRate := 0, mean := 0, std := 0, zScore := 0,
    signal := .NEUTRAL, confirmations := 0, confirmationDetails := [], edgeScore := 0,
    winProbability := 0.5, isFundingReversing := false }

lemma ccStep_fst (c : Prop) [Decidable c] (s : ℕ × List String) (d : String) :
    (ccStep c s d).1 = s.1 + (if c then 1 else 0) := by
  unfold ccStep
  split_ifs <;> simp

lemma ccStep_snd (c : Prop) [Decidable c] (s : ℕ × List String) (d : String) :
    (ccStep c s d).2 = s.2 ++ (if c then [d] else []) := by
  unfold ccStep
  split_ifs <;> simp

lemma countConfirmations_fst (z cur : ℚ) (rev : Bool) (lb : List ℚ) :
    (countConfirmations z cur rev lb).1 =
      ((if |z| ≥ 1.8 then 1 else 0) + (if |z| ≥ 2.0 then 1 else 0) +
       (if |z| ≥ 2.5 then 1 else 0) + (if |z| ≥ 3.0 then 1 else 0) +
       (if rev = true then 1 else 0) + (if nearExtreme cur lb then 1 else 0)) := by
  unfold countConfirmations
  simp only [ccStep_fst]
  omega

lemma countConfirmations_snd (z cur : ℚ) (rev : Bool) (lb : List ℚ) :
    (countConfirmations z cur rev lb).2 =
      ((if |z| ≥ 1.8 then [zScoreDetail z] else []) ++
       (if |z| ≥ 2.0 then ["Above 2σ threshold"] else []) ++
       (if |z| ≥ 2.5 then ["Extreme deviation (2.5σ+)"] else []) ++
       (if |z| ≥ 3.0 then ["🔥 Ultra extreme (3σ+)"] else []) ++
       (if rev = true then ["Funding trend reversing"] else []) ++
       (if nearExtreme cur lb then ["Near historical extreme"] else [])) := by
  unfold countConfirmations
  simp only [ccStep_snd, List.nil_append, List.append_assoc]

lemma countConfirmations_len (z cur : ℚ) (rev : Bool) (lb : List ℚ) :
    (countConfirmations z cur rev lb).2.length = (countConfirmations z cur rev lb).1 ∧
      (countConfirmations z cur rev lb).1 ≤ 6 := by
  rw [countConfirmations_fst, countConfirmations_snd]
  constructor
  · simp only [List.length_append, apply_ite List.length, List.length_singleton,
      List.length_nil]
  · split_ifs <;> simp

lemma buildAnalysis_confirmations (sym : String) (frs : List FundingRate)
    (price std : ℚ) (lb : ℕ) :
    (buildAnalysis sym frs price std lb).confirmations =
      (countConfirmations (buildAnalysis sym frs price std lb).zScore
        (buildAnalysis sym frs price std lb).currentRate
        (buildAnalysis sym frs price std lb).isFundingReversing
        (analysisLookback frs lb)).1 := rfl

lemma buildAnalysis_details (sym : String) (frs : List FundingRate)
    (price std : ℚ) (lb : ℕ) :
    (buildAnalysis sym frs price std lb).confirmationDetails =
      (countConfirmations (buildAnalysis sym frs price std lb).zScore
        (buildAnalysis sym frs price std lb).currentRate
        (buildAnalysis sym frs price std lb).isFundingReversing
        (analysisLookback frs lb)).2 := rfl

lemma buildAnalysis_zScore (sym : String) (frs : List FundingRate)
    (price std : ℚ) (lb : ℕ) :
    (buildAnalysis sym frs price std lb).zScore =
      (if std > 0 then
        ((analysisRates frs).getLast?.getD 0 - listMean (analysisLookback frs lb)) / std
      else 0) := rfl

lemma buildAnalysis_winProbability (sym : String) (frs : List FundingRate)
    (price std : ℚ) (lb : ℕ) :
    (buildAnalysis sym frs price std lb).winProbability =
      winProbability |(buildAnalysis sym frs price std lb).zScore|
        (buildAnalysis sym frs price std lb).confirmations
        (buildAnalysis sym frs price std lb).isFundingReversing := rfl

lemma winProbability_ge_half (absZ : ℚ) (h : 0 ≤ absZ) (c : ℕ) (r : Bool) :
    1/2 ≤ winProbability absZ c r := by
  unfold winProbability
  have h1 : (0:ℚ) ≤ min 0.15 (absZ * 0.05) := le_min (by norm_num) (by positivity)
  have h2 : (0:ℚ) ≤ (c : ℚ) * 0.03 := by positivity
  have h3 : (0:ℚ) ≤ (if r then (0.05:ℚ) else 0) := by split <;> norm_num
  rw [le_min_iff]
  constructor
  · norm_num
  · linarith

/-- C1: the classifier of lines 133-142 agrees with the spec's table,
evaluated as the first matching row; and a z-score clearing any magnitude
threshold with fewer than 2 confirmations always degrades to NEUTRAL. -/
theorem classifier_matches_spec_table :
    (∀ (z : ℚ) (c : ℕ), determineSignal z c = specClassifierSignal z c) ∧
    (∀ (z : ℚ) (c : ℕ), c < 2 → determineSignal z c = SignalType.NEUTRAL) := by
  constructor
  · intro z c
    rfl
  · intro z c hc
    unfold determineSignal
    split_ifs with h1 h2 h3 h4 h5 h6 h7 h8
    · exact absurd h1.2 (by omega)
    · exact absurd h2.2 (by omega)
    · exact absurd h3.2 (by omega)
    · exact absurd h4.2 (by omega)
    · exact absurd h5.2 (by omega)
    · exact absurd h6.2 (by omega)
    · exact absurd h7.2 (by omega)
    · exact absurd h8.2 (by omega)
    · rfl

/-- Witness for C1 at the concrete input z = 5, c = 1. -/
theorem classifier_matches_spec_table_witness :
    determineSignal 5 1 = SignalType.NEUTRAL :=
  classifier_matches_spec_table.2 5 1 (by omega)

/-- C2: for every analysis, positive capital and risk mode, the position size
is capped at 40% of capital and the rounded leverage at 15. -/
theorem position_size_and_leverage_caps (analysis : Analysis) (capital : ℚ)
    (riskMode : RiskMode) (hcap : 0 < capital) :
    (calculatePosition analysis capital riskMode).positionSize ≤ 0.40 * capital ∧
    (calculatePosition analysis capital riskMode).leverage ≤ 15 := by
  unfold calculatePosition
  dsimp only
  constructor
  · rw [show (0.40:ℚ) * capital = capital * 0.4 by ring]
    exact min_le_right _ _
  · exact min_le_right _ _

/-- Witness for C2 at a concrete analysis, capital 1000 and MEDIUM risk. -/
theorem position_size_and_leverage_caps_witness :
    (calculatePosition demoAnalysis 1000 RiskMode.MEDIUM).positionSize ≤ 0.40 * 1000 ∧
    (calculatePosition demoAnalysis 1000 RiskMode.MEDIUM).leverage ≤ 15 :=
  position_size_and_leverage_caps demoAnalysis 1000 RiskMode.MEDIUM (by norm_num)

/-- C4: `analyzeAsset` returns `none` exactly when the funding history is
shorter than the lookback, and a (non-null) analysis as soon as it is not;
the function is total, so insufficient data never raises an exception. -/
theorem analyzeAsset_none_iff_insufficient (sym : String) (frs : List FundingRate)
    (price std : ℚ) (lb : ℕ) :
    (analyzeAsset sym frs price std lb = none ↔ frs.length < lb) ∧
    (lb ≤ frs.length → ∃ a, analyzeAsset sym frs price std lb = some a) := by
  unfold analyzeAsset
  constructor
  · split_ifs with h
    · simp [h]
    · simp [h]
  · intro hle
    rw [if_neg (by omega)]
    exact ⟨_, rfl⟩

/-- Witness for C4: two samples with lookback 2 produce a non-null analysis. -/
theorem analyzeAsset_none_iff_insufficient_witness :
    ∃ a, analyzeAsset "X" demoFRs 100 0 2 = some a :=
  (analyzeAsset_none_iff_insufficient "X" demoFRs 100 0 2).2 (by decide)

/-- C3: whenever the exact square root `std` of the computed lookback variance
is zero, the z-score returned is exactly zero — the division branch is
guarded — both in `analyzeAsset` (`src/lib/analysis.ts`) and in the
`calculateZScore` variant of the signals library. -/
theorem zscore_zero_when_std_zero (sym : String) (frs : List FundingRate)
    (price std : ℚ) (lb : ℕ) (frs2 : List FundingRate) (cur std2 : ℚ) (lb2 : ℕ)
    (hsq : std * std = listVariance (analysisLookback frs lb))
    (hv : listVariance (analysisLookback frs lb) = 0)
    (hsq2 : std2 * std2 = calcStatsVariance (zScoreRates frs2 lb2))
    (hv2 : calcStatsVariance (zScoreRates frs2 lb2) = 0) :
    (∀ a ∈ analyzeAsset sym frs price std lb, a.zScore = 0) ∧
    calculateZScore frs2 cur std2 lb2 = 0 := by
  have hstd : std = 0 := mul_self_eq_zero.mp (hsq.trans hv)
  have hstd2 : std2 = 0 := mul_self_eq_zero.mp (hsq2.trans hv2)
  constructor
  · intro a ha
    rw [Option.mem_def] at ha
    unfold analyzeAsset at ha
    split at ha
    · exact absurd ha (by simp)
    · have h := Option.some.inj ha
      subst h
      rw [buildAnalysis_zScore, hstd]
      norm_num
  · unfold calculateZScore
    split_ifs <;> rfl

/-- Witness for C3 on the constant two-sample history, whose variance is 0. -/
theorem zscore_zero_when_std_zero_witness :
    demoAnalysis.zScore = 0 ∧ calculateZScore demoFRs 1 0 2 = 0 := by
  have h := zscore_zero_when_std_zero "X" demoFRs 100 0 2 demoFRs 1 0 2
    (by norm_num [listVariance, listMean, analysisLookback, analysisRates,
      sortByTimestamp, sliceNeg, List.insertionSort, List.orderedInsert, demoFRs])
    (by norm_num [listVariance, listMean, analysisLookback, analysisRates,
      sortByTimestamp, sliceNeg, List.insertionSort, List.orderedInsert, demoFRs])
    (by norm_num [calcStatsVariance, calcStatsMean, zScoreRates, sliceNeg, demoFRs])
    (by norm_num [calcStatsVariance, calcStatsMean, zScoreRates, sliceNeg, demoFRs])
  refine ⟨h.1 demoAnalysis ?_, h.2⟩
  rw [Option.mem_def]
  norm_num [analyzeAsset, buildAnalysis, analysisLookback, analysisRates, sortByTimestamp,
    sliceNeg, List.insertionSort, List.orderedInsert, demoFRs, listMean,
    countConfirmations, ccStep, nearExtreme, listMax, listMin, determineSignal,
    edgeScore, winProbability, zScoreDetail, demoAnalysis]

/-- C5: the confirmation count of every non-null analysis equals the number of
true conditions among the six evaluated ones (the four cumulative z-score
thresholds, funding-trend reversal, proximity to the historical extreme), and
the details list holds exactly one string per true condition in evaluation
order. -/
theorem confirmations_count_true_conditions :
    ∀ (sym : String) (frs : List FundingRate) (price std : ℚ) (lb : ℕ),
      ∀ a ∈ analyzeAsset sym frs price std lb,
        a.confirmations =
          ((if |a.zScore| ≥ 1.8 then 1 else 0) + (if |a.zScore| ≥ 2.0 then 1 else 0) +
           (if |a.zScore| ≥ 2.5 then 1 else 0) + (if |a.zScore| ≥ 3.0 then 1 else 0) +
           (if a.isFundingReversing = true then 1 else 0) +
           (if nearExtreme a.currentRate (analysisLookback frs lb) then 1 else 0)) ∧
        a.confirmationDetails =
          ((if |a.zScore| ≥ 1.8 then [zScoreDetail a.zScore] else []) ++
           (if |a.zScore| ≥ 2.0 then ["Above 2σ threshold"] else []) ++
           (if |a.zScore| ≥ 2.5 then ["Extreme deviation (2.5σ+)"] else []) ++
           (if |a.zScore| ≥ 3.0 then ["🔥 Ultra extreme (3σ+)"] else []) ++
           (if a.isFundingReversing = true then ["Funding trend reversing"] else []) ++
           (if nearExtreme a.currentRate (analysisLookback frs lb)
            then ["Near historical extreme"] else [])) := by
  intro sym frs price std lb a ha
  rw [Option.mem_def] at ha
  unfold analyzeAsset at ha
  split at ha
  · exact absurd ha (by simp)
  · have h := Option.some.inj ha
    subst h
    rw [buildAnalysis_confirmations, buildAnalysis_details]
    exact ⟨countConfirmations_fst _ _ _ _, countConfirmations_snd _ _ _ _⟩

/-- Witness for C5 on the constant two-sample history (no condition true). -/
theorem confirmations_count_true_conditions_witness :
    demoAnalysis.confirmations = 0 ∧ demoAnalysis.confirmationDetails = [] := by
  have h := confirmations_count_true_conditions "X" demoFRs 100 0 2 demoAnalysis
    (by rw [Option.mem_def]
        norm_num [analyzeAsset, buildAnalysis, analysisLookback, analysisRates,
          sortByTimestamp, sliceNeg, List.insertionSort, List.orderedInsert, demoFRs,
          listMean, countConfirmations, ccStep, nearExtreme, listMax, listMin,
          determineSignal, edgeScore, winProbability, zScoreDetail, demoAnalysis])
  refine ⟨h.1.trans ?_, h.2.trans ?_⟩ <;>
    norm_num [demoAnalysis, nearExtreme, listMax, listMin, analysisLookback,
      analysisRates, sortByTimestamp, sliceNeg, List.insertionSort,
      List.orderedInsert, demoFRs]

/-- C9: every non-null analysis has exactly `confirmations` detail strings and
at most six confirmations, one per evaluated condition. -/
theorem confirmation_details_length_and_bound :
    ∀ (sym : String) (frs : List FundingRate) (price std : ℚ) (lb : ℕ),
      ∀ a ∈ analyzeAsset sym frs price std lb,
        a.confirmationDetails.length = a.confirmations ∧ a.confirmations ≤ 6 := by
  intro sym frs price std lb a ha
  rw [Option.mem_def] at ha
  unfold analyzeAsset at ha
  split at ha
  · exact absurd ha (by simp)
  · have h := Option.some.inj ha
    subst h
    rw [buildAnalysis_confirmations, buildAnalysis_details]
    exact countConfirmations_len _ _ _ _

/-- Witness for C9 on the constant two-sample history. -/
theorem confirmation_details_length_and_bound_witness :
    demoAnalysis.confirmationDetails.length = demoAnalysis.confirmations ∧
      demoAnalysis.confirmations ≤ 6 :=
  confirmation_details_length_and_bound "X" demoFRs 100 0 2 demoAnalysis
    (by rw [Option.mem_def]
        norm_num [analyzeAsset, buildAnalysis, analysisLookback, analysisRates,
          sortByTimestamp, sliceNeg, List.insertionSort, List.orderedInsert, demoFRs,
          listMean, countConfirmations, ccStep, nearExtreme, listMax, listMin,
          determineSignal, edgeScore, winProbability, zScoreDetail, demoAnalysis])

/-- C10: every analysis produced by `analyzeAsset` has a win probability of at
least 0.50, and for any such analysis every sized position has expected value
at least 0.0075 (= 3/400), hence strictly positive, because the fixed 2:1
reward:risk exits give `EV = wp*0.03 - (1-wp)*0.015`. -/
theorem expected_value_at_least_threshold :
    (∀ (sym : String) (frs : List FundingRate) (price std : ℚ) (lb : ℕ),
      ∀ a ∈ analyzeAsset sym frs price std lb, 1/2 ≤ a.winProbability) ∧
    (∀ (a : Analysis) (capital : ℚ) (m : RiskMode), 1/2 ≤ a.winProbability →
      3/400 ≤ (calculatePosition a capital m).expectedValue) := by
  constructor
  · intro sym frs price std lb a ha
    rw [Option.mem_def] at ha
    unfold analyzeAsset at ha
    split at ha
    · exact absurd ha (by simp)
    · have h := Option.some.inj ha
      subst h
      rw [buildAnalysis_winProbability]
      exact winProbability_ge_half _ (abs_nonneg _) _ _
  · intro a capital m h
    unfold calculatePosition
    dsimp only
    linarith

/-- Witness for C10 at the concrete NEUTRAL analysis and MEDIUM risk. -/
theorem expected_value_at_least_threshold_witness :
    1/2 ≤ demoAnalysis.winProbability ∧
      3/400 ≤ (calculatePosition demoAnalysis 1000 RiskMode.MEDIUM).expectedValue := by
  have h1 := expected_value_at_least_threshold.1 "X" demoFRs 100 0 2 demoAnalysis
    (by rw [Option.mem_def]
        norm_num [analyzeAsset, buildAnalysis, analysisLookback, analysisRates,
          sortByTimestamp, sliceNeg, List.insertionSort, List.orderedInsert, demoFRs,
          listMean, countConfirmations, ccStep, nearExtreme, listMax, listMin,
          determineSignal, edgeScore, winProbability, zScoreDetail, demoAnalysis])
  exact ⟨h1, expected_value_at_least_threshold.2 demoAnalysis 1000 RiskMode.MEDIUM h1⟩

/-- C6: `edgeScore` and `winProbability` are monotonically non-decreasing in
the z-score magnitude and in the confirmation count, with `edgeScore` in
[0, 100] and `winProbability` in [0.50, 0.80]. -/
theorem edge_win_monotone_and_bounded :
    (∀ (z1 z2 : ℚ) (c : ℕ) (r : Bool), |z1| ≤ |z2| →
      edgeScore |z1| c ≤ edgeScore |z2| c ∧
      winProbability |z1| c r ≤ winProbability |z2| c r) ∧
    (∀ (z : ℚ) (c1 c2 : ℕ) (r : Bool), c1 ≤ c2 →
      edgeScore |z| c1 ≤ edgeScore |z| c2 ∧
      winProbability |z| c1 r ≤ winProbability |z| c2 r) ∧
    (∀ (z : ℚ) (c : ℕ) (r : Bool),
      0 ≤ edgeScore |z| c ∧ edgeScore |z| c ≤ 100 ∧
      1/2 ≤ winProbability |z| c r ∧ winProbability |z| c r ≤ 0.80) := by
  refine ⟨?_, ?_, ?_⟩
  · intro z1 z2 c r h
    unfold edgeScore winProbability
    constructor <;> gcongr
  · intro z c1 c2 r h
    have hc : (c1:ℚ) ≤ (c2:ℚ) := by exact_mod_cast h
    unfold edgeScore winProbability
    constructor <;> gcongr
  · intro z c r
    refine ⟨?_, min_le_left _ _, winProbability_ge_half _ (abs_nonneg _) _ _,
      min_le_left _ _⟩
    unfold edgeScore
    have h : (0:ℚ) ≤ |z| * 15 + c * 12 := by positivity
    exact le_min (by norm_num) h

/-- Witness for C6 at concrete inputs |1| ≤ |-3|, confirmations 2 ≤ 4. -/
theorem edge_win_monotone_and_bounded_witness :
    (edgeScore |(1:ℚ)| 2 ≤ edgeScore |(-3:ℚ)| 2 ∧
      winProbability |(1:ℚ)| 2 true ≤ winProbability |(-3:ℚ)| 2 true) ∧
    (edgeScore |(1:ℚ)| 2 ≤ edgeScore |(1:ℚ)| 4 ∧
      winProbability |(1:ℚ)| 2 false ≤ winProbability |(1:ℚ)| 4 false) :=
  ⟨edge_win_monotone_and_bounded.1 1 (-3) 2 true (by norm_num),
   edge_win_monotone_and_bounded.2.1 1 2 4 false (by norm_num)⟩

set_option maxHeartbeats 2000000 in
/-- C7: the classifier is anti-symmetric — negating the z-score mirrors the
signal, with ULTRA_SHORT ↔ ULTRA_LONG, STRONG_SHORT ↔ STRONG_LONG,
SHORT ↔ LONG and NEUTRAL fixed. -/
theorem classifier_antisymmetric : ∀ (z : ℚ) (c : ℕ),
    determineSignal z c = mirrorSignal (determineSignal (-z) c) := by
  intro z c
  unfold determineSignal
  rcases Nat.lt_or_ge c 2 with hc | hc
  · simp only [ge_iff_le, show ¬((2:ℕ) ≤ c) from by omega,
      show ¬((3:ℕ) ≤ c) from by omega, show ¬((4:ℕ) ≤ c) from by omega,
      show ¬((5:ℕ) ≤ c) from by omega, and_false, if_false]
    rfl
  · rcases Nat.lt_or_ge c 3 with hc3 | hc3
    · simp only [ge_iff_le, show (2:ℕ) ≤ c from hc, show ¬((3:ℕ) ≤ c) from by omega,
        show ¬((4:ℕ) ≤ c) from by omega, show ¬((5:ℕ) ≤ c) from by omega,
        and_false, and_true, if_false]
      split_ifs <;> first | rfl | linarith
    · rcases Nat.lt_or_ge c 4 with hc4 | hc4
      · simp only [ge_iff_le, show (2:ℕ) ≤ c from by omega, show (3:ℕ) ≤ c from hc3,
          show ¬((4:ℕ) ≤ c) from by omega, show ¬((5:ℕ) ≤ c) from by omega,
          and_false, and_true, if_false]
        split_ifs <;> first | rfl | linarith
      · rcases Nat.lt_or_ge c 5 with hc5 | hc5
        · simp only [ge_iff_le, show (2:ℕ) ≤ c from by omega,
            show (3:ℕ) ≤ c from by omega, show (4:ℕ) ≤ c from hc4,
            show ¬((5:ℕ) ≤ c) from by omega, and_false, and_true, if_false]
          split_ifs <;> first | rfl | linarith
        · simp only [ge_iff_le, show (2:ℕ) ≤ c from by omega,
            show (3:ℕ) ≤ c from by omega, show (4:ℕ) ≤ c from by omega,
            show (5:ℕ) ≤ c from hc5, and_true]
          split_ifs <;> first | rfl | linarith

lemma logb_twenty_bounds : 4.31 < Real.logb 2 20 ∧ Real.logb 2 20 < 4.33 := by
  have hb : (1:ℝ) < 2 := by norm_num
  constructor
  · have h1 : (2:ℝ) ^ (431:ℕ) < 20 ^ (100:ℕ) := by norm_num
    have h2 := Real.logb_lt_logb hb (by positivity) h1
    rw [Real.logb_pow, Real.logb_pow, Real.logb_self_eq_one hb] at h2
    push_cast at h2
    linarith
  · have h1 : (20:ℝ) ^ (100:ℕ) < 2 ^ (433:ℕ) := by norm_num
    have h2 := Real.logb_lt_logb hb (by positivity) h1
    rw [Real.logb_pow, Real.logb_pow, Real.logb_self_eq_one hb] at h2
    push_cast at h2
    linarith

/-- C8: `calculateProgress` clamps both progress ratios to [0, 1] as the spec
states, and on the concrete scenario (current 10000, start 5000, goal 100000)
yields `linearProgress = 1/19 ≈ 0.0526`, one completed doubling,
`totalDoublings = log2 20` (strictly between 4.31 and 4.33, so ≈ 4.32) and
`logProgress = 1 / log2 20` strictly between 0.2309 and 0.2321, so ≈ 0.2315. -/
theorem progress_formulas_and_scenario :
    (∀ current start goal : ℝ,
      (calculateProgress current start goal).linearProgress =
        max 0 (min 1 ((current - start) / (goal - start))) ∧
      (calculateProgress current start goal).logProgress =
        max 0 (min 1 (Real.logb 2 (current / start) / Real.logb 2 (goal / start)))) ∧
    (calculateProgress 10000 5000 100000).linearProgress = 1 / 19 ∧
    (calculateProgress 10000 5000 100000).doublings = 1 ∧
    (calculateProgress 10000 5000 100000).doublings +
      (calculateProgress 10000 5000 100000).doublingsRemaining = Real.logb 2 20 ∧
    (4.31 < Real.logb 2 20 ∧ Real.logb 2 20 < 4.33) ∧
    0.2309 < (calculateProgress 10000 5000 100000).logProgress ∧
    (calculateProgress 10000 5000 100000).logProgress < 0.2321 := by
  have hb : (1:ℝ) < 2 := by norm_num
  have h1 : Real.logb 2 ((10000:ℝ) / 5000) = 1 := by
    rw [show (10000:ℝ) / 5000 = 2 by norm_num]
    exact Real.logb_self_eq_one hb
  have h20 : Real.logb 2 ((100000:ℝ) / 5000) = Real.logb 2 20 := by norm_num
  have hlo := logb_twenty_bounds.1
  have hhi := logb_twenty_bounds.2
  have hL0 : (0:ℝ) < Real.logb 2 20 := by linarith
  refine ⟨fun current start goal => ⟨rfl, rfl⟩, ?_⟩
  unfold calculateProgress
  dsimp only
  rw [h1, h20]
  refine ⟨?_, rfl, by ring, ⟨hlo, hhi⟩, ?_, ?_⟩
  · rw [show ((10000:ℝ) - 5000) / (100000 - 5000) = 1/19 by norm_num]
    rw [min_eq_right (by norm_num), max_eq_right (by norm_num)]
  · have hx : (1:ℝ) / Real.logb 2 20 ≤ 1 := by
      rw [div_le_one hL0]; linarith
    rw [min_eq_right hx, max_eq_right (by positivity)]
    rw [lt_div_iff₀ hL0]
    linarith
  · have hx : (1:ℝ) / Real.logb 2 20 ≤ 1 := by
      rw [div_le_one hL0]; linarith
    rw [min_eq_right hx, max_eq_right (by positivity)]
    rw [div_lt_iff₀ hL0]
    linarith
